import Mathlib

/-!
Verification of the Grid-GE game session engine.

The definitions below are a shallow embedding of the repository's code:
* `core/game-logic` (pure grid functions over a 3×3 matrix of numbers),
* `db/database` (session records, `joinGame`, `makeMove`, `getLeaderboard`),
* `routes/api` (the route handlers composing validation with the database
  operations).

JavaScript arrays of numbers become `List Nat`; SQL rows become Lean
structures; a nullable column becomes `Option`; a thrown business-rule error
becomes an `Except` error value (constructor names follow the engine's error
taxonomy, each documented with the message string the code throws).
-/

namespace GridGE

/-! ### Grid logic (`core/game-logic`) -/

/-- `Grid = number[][]` from the source. -/
abbrev Grid := List (List Nat)

/-- `createEmptyGrid()` — a 3×3 matrix of zeros. -/
def createEmptyGrid : Grid := [[0, 0, 0], [0, 0, 0], [0, 0, 0]]

/-- Cell access `grid[row][col]` (used by the source only at indices that are
in bounds for a 3×3 grid). -/
def cell (g : Grid) (r c : Nat) : Nat := (g.getD r []).getD c 0

/-- A grid that is an actual 3×3 matrix, as produced by the engine. -/
def WFGrid (g : Grid) : Prop := g.length = 3 ∧ ∀ row ∈ g, row.length = 3

instance : DecidablePred WFGrid := fun g => by
  unfold WFGrid; infer_instance

/-- `isMoveValid(grid, row, col)`: bounds check, then `grid[row][col] === 0`. -/
def isMoveValid (g : Grid) (row col : Int) : Bool :=
  if row < 0 || row > 2 || col < 0 || col > 2 then false
  else cell g row.toNat col.toNat == 0

/-- `checkWin(grid, playerId)`: the 3 rows, 3 columns and 2 diagonals. -/
def checkWin (g : Grid) (playerId : Nat) : Bool :=
  (cell g 0 0 == playerId && cell g 0 1 == playerId && cell g 0 2 == playerId) ||
  (cell g 1 0 == playerId && cell g 1 1 == playerId && cell g 1 2 == playerId) ||
  (cell g 2 0 == playerId && cell g 2 1 == playerId && cell g 2 2 == playerId) ||
  (cell g 0 0 == playerId && cell g 1 0 == playerId && cell g 2 0 == playerId) ||
  (cell g 0 1 == playerId && cell g 1 1 == playerId && cell g 2 1 == playerId) ||
  (cell g 0 2 == playerId && cell g 1 2 == playerId && cell g 2 2 == playerId) ||
  (cell g 0 0 == playerId && cell g 1 1 == playerId && cell g 2 2 == playerId) ||
  (cell g 0 2 == playerId && cell g 1 1 == playerId && cell g 2 0 == playerId)

/-- `checkDraw(grid)`: scans all 9 cells, `false` as soon as one is `0`. -/
def checkDraw (g : Grid) : Bool :=
  (List.range 3).all fun r => (List.range 3).all fun c => cell g r c != 0

/-- `makeMove(grid, row, col, playerId)` from `core/game-logic`: copy the
matrix and set one cell (value semantics; `applyMark` in the spec's naming). -/
def makeMove (g : Grid) (row col playerId : Nat) : Grid :=
  g.set row ((g.getD row []).set col playerId)

/-- Number of non-empty cells of the 3×3 grid. -/
def countNonEmpty (g : Grid) : Nat :=
  ((List.range 3).map fun r =>
    ((List.range 3).map fun c => if cell g r c = 0 then 0 else 1).sum).sum

/-! ### Data model (`db/database` schema) -/

/-- A row of the `players` table (`id` is `AUTOINCREMENT`, hence ≥ 1;
`total_wins`/`total_moves_in_wins` default to 0). -/
structure Player where
  id : Nat
  name : String
  total_wins : Nat
  total_moves_in_wins : Nat
deriving DecidableEq, Repr

/-- `GameStatus = 'waiting' | 'in_progress' | 'win' | 'draw'`. -/
inductive GameStatus where
  | waiting
  | in_progress
  | win
  | draw
deriving DecidableEq, Repr

/-- A row of the `games` table. The `grid` column stores the parsed matrix
(the JSON round-trip of the source is the identity on 3×3 number matrices). -/
structure Game where
  id : String
  player1_id : Option Nat
  player2_id : Option Nat
  current_turn_player_id : Option Nat
  status : GameStatus
  winner_id : Option Nat
  grid : Grid
  move_count : Nat
deriving DecidableEq, Repr

/-- A row of the `moves` table (append-only audit trail). -/
structure MoveRec where
  game_id : String
  player_id : Nat
  row : Int
  col : Int
  move_number : Nat
deriving DecidableEq, Repr

/-- The database: the three tables, each in primary-key/insertion order. -/
structure DB where
  players : List Player
  games : List Game
  moves : List MoveRec
deriving DecidableEq, Repr

/-- The engine's business-rule error taxonomy.  Each constructor corresponds
to one error signal of the code: `BadRequest` = the routes' 400 on a missing
or falsy body field, `PlayerNotFound` = 404 `Player not found`,
`NotFound` = `Game not found`, `InvalidState` = `Game is not in waiting
state` / `Game is not in progress`, `SelfJoin` = `Cannot join your own game`,
`NotYourTurn` = `Not your turn`, `IllegalMove` = `Invalid move: cell is
already occupied or out of bounds`. -/
inductive ApiError where
  | BadRequest
  | PlayerNotFound
  | NotFound
  | InvalidState
  | SelfJoin
  | NotYourTurn
  | IllegalMove
deriving DecidableEq, Repr

/-- `SELECT * FROM players WHERE id = ?` (primary key lookup). -/
def getPlayerById (db : DB) (pid : Nat) : Option Player :=
  db.players.find? fun p => p.id == pid

/-- `SELECT * FROM games WHERE id = ?` (primary key lookup). -/
def getGameById (db : DB) (gid : String) : Option Game :=
  db.games.find? fun g => g.id == gid

/-! ### Session store operations -/

/-- `createGame` (route `POST /games` composed with the db insert): checks
the player exists, then inserts a fresh `waiting` game with an empty grid,
`current_turn_player_id` = the creator, `move_count` = 0. -/
def createGame (db : DB) (playerId : Nat) (gameId : String) :
    Except ApiError DB :=
  if playerId == 0 then .error .BadRequest
  else match getPlayerById db playerId with
  | none => .error .PlayerNotFound
  | some _ =>
      .ok { db with
        games := db.games ++
          [{ id := gameId, player1_id := some playerId, player2_id := none,
             current_turn_player_id := some playerId, status := .waiting,
             winner_id := none, grid := createEmptyGrid, move_count := 0 }] }

/-- `joinGame(gameId, playerId)` from `db/database`: `Game not found`, then
`Game is not in waiting state`, then `Cannot join your own game`; on success
sets `player2_id` and `status = 'in_progress'` (and nothing else). -/
def joinGame (db : DB) (gameId : String) (playerId : Nat) :
    Except ApiError DB :=
  match getGameById db gameId with
  | none => .error .NotFound
  | some game =>
      if game.status ≠ .waiting then .error .InvalidState
      else if game.player1_id == some playerId then .error .SelfJoin
      else .ok { db with
        games := db.games.map fun g =>
          if g.id == gameId then
            { g with player2_id := some playerId, status := .in_progress }
          else g }

/-- Route `POST /games/:gameId/join`: body validation and player lookup,
then `joinGame`. -/
def joinGameApi (db : DB) (gameId : String) (playerId : Nat) :
    Except ApiError DB :=
  if playerId == 0 then .error .BadRequest
  else match getPlayerById db playerId with
  | none => .error .PlayerNotFound
  | some _ => joinGame db gameId playerId

/-- The committed effects of `makeMove` from `db/database` (the three
`UPDATE`/`INSERT` statements of its transaction), given the game row the
transaction read: write the new grid/count/turn/status/winner, append the
move record, and — when `winnerId` is truthy — bump that player's
`total_wins` by 1 and `total_moves_in_wins` by the new move number. -/
def dbCommit (db : DB) (gameId : String) (playerId : Nat) (row col : Int)
    (newGrid : Grid) (newStatus : GameStatus) (winnerId : Option Nat)
    (game : Game) : DB :=
  let moveNumber := game.move_count + 1
  let nextPlayerId :=
    if game.player1_id == some playerId then game.player2_id
    else game.player1_id
  { players :=
      if winnerId.getD 0 ≠ 0 then
        db.players.map fun p =>
          if p.id == winnerId.getD 0 then
            { p with total_wins := p.total_wins + 1,
                     total_moves_in_wins := p.total_moves_in_wins + moveNumber }
          else p
      else db.players,
    games := db.games.map fun g =>
      if g.id == gameId then
        { g with grid := newGrid, move_count := moveNumber,
                 current_turn_player_id :=
                   if newStatus = .in_progress then nextPlayerId
                   else game.current_turn_player_id,
                 status := newStatus, winner_id := winnerId }
      else g,
    moves := db.moves ++ [⟨gameId, playerId, row, col, moveNumber⟩] }

/-- `makeMove` from `db/database` (the transaction): re-reads the game and
re-validates (`Game not found` / `Game is not in progress` / `Not your turn`
/ `Cell is already occupied`), then commits. -/
def dbMakeMove (db : DB) (gameId : String) (playerId : Nat) (row col : Int)
    (newGrid : Grid) (newStatus : GameStatus) (winnerId : Option Nat) :
    Except ApiError (DB × Nat) :=
  match getGameById db gameId with
  | none => .error .NotFound
  | some game =>
      if game.status ≠ .in_progress then .error .InvalidState
      else if game.current_turn_player_id ≠ some playerId then
        .error .NotYourTurn
      else if cell game.grid row.toNat col.toNat ≠ 0 then .error .IllegalMove
      else .ok (dbCommit db gameId playerId row col newGrid newStatus
                  winnerId game, game.move_count + 1)

/-- The new-status computation of route `POST /games/:gameId/move`: win
checked first, then draw, else still in progress. -/
def newStatusOf (newGrid : Grid) (playerNumber : Nat) : GameStatus :=
  if checkWin newGrid playerNumber then .win
  else if checkDraw newGrid then .draw
  else .in_progress

/-- Route `POST /games/:gameId/move` (= the spec's `applyMove`): body
validation, player and game lookups, status/turn/legality checks, mark the
cell with the acting player's number (1 for the session's first player, 2
otherwise), evaluate win/draw, and run the `makeMove` transaction. -/
def applyMove (db : DB) (gameId : String) (playerId : Nat) (row col : Int) :
    Except ApiError DB :=
  if playerId == 0 then .error .BadRequest
  else match getPlayerById db playerId with
  | none => .error .PlayerNotFound
  | some _ =>
      match getGameById db gameId with
      | none => .error .NotFound
      | some game =>
          if game.status ≠ .in_progress then .error .InvalidState
          else if game.current_turn_player_id ≠ some playerId then
            .error .NotYourTurn
          else if ¬ isMoveValid game.grid row col then .error .IllegalMove
          else
            let playerNumber : Nat :=
              if game.player1_id == some playerId then 1 else 2
            let newGrid := makeMove game.grid row.toNat col.toNat playerNumber
            let newStatus := newStatusOf newGrid playerNumber
            let winnerId :=
              if checkWin newGrid playerNumber then some playerId else none
            (dbMakeMove db gameId playerId row col newGrid newStatus
              winnerId).map Prod.fst

/-- The read shape of route `GET /games/:gameId` (`getSession`): it returns
`current_turn_player_id` and `winner_id` unconditionally, whatever the
status. -/
structure SessionView where
  gameId : String
  status : GameStatus
  player1_id : Option Nat
  player2_id : Option Nat
  current_turn_player_id : Option Nat
  winner_id : Option Nat
  grid : Grid
deriving DecidableEq, Repr

/-- `GET /games/:gameId`: `Game not found` or the snapshot. -/
def getSession (db : DB) (gameId : String) : Option SessionView :=
  (getGameById db gameId).map fun g =>
    ⟨g.id, g.status, g.player1_id, g.player2_id, g.current_turn_player_id,
     g.winner_id, g.grid⟩

/-! ### Reachable engine states

A database is reachable when it is produced from the empty database by the
engine's operations.  `createPlayer` inserts a row with a fresh
`AUTOINCREMENT` id (hence nonzero and distinct from every existing id) and
zero statistics; `createGame` uses a fresh UUID (the primary key constraint
of `games`). -/
inductive Reachable : DB → Prop where
  | init : Reachable ⟨[], [], []⟩
  | createPlayer {db : DB} (pid : Nat) (name : String) :
      Reachable db → pid ≠ 0 → getPlayerById db pid = none →
      Reachable { db with players := db.players ++ [⟨pid, name, 0, 0⟩] }
  | createGame {db db' : DB} (pid : Nat) (gid : String) :
      Reachable db → getGameById db gid = none →
      createGame db pid gid = .ok db' → Reachable db'
  | joinGame {db db' : DB} (gid : String) (pid : Nat) :
      Reachable db → joinGameApi db gid pid = .ok db' → Reachable db'
  | applyMove {db db' : DB} (gid : String) (pid : Nat) (row col : Int) :
      Reachable db → applyMove db gid pid row col = .ok db' → Reachable db'

/-! ### Leaderboard (`getLeaderboard` from `db/database`)

The SQL queries scan the `players` table (rows in primary-key order),
keep `total_wins > 0`, order by the score expression (`total_wins DESC`
or the unrounded `total_moves_in_wins / total_wins ASC`), number the rows
with `ROW_NUMBER()` over the same ordering, and `LIMIT 3`.  The queries name no
tie-break column and SQLite guarantees no particular order among rows it
compares equal, so the relative order of exact score ties is left
unspecified by the source; to keep the functions executable, `ORDER BY` is
modelled here as a stable sort of the primary-key-ordered scan — one of
the orders the engine may produce — and no property of the tie order is
claimed from it.  The `FLOAT` division is modelled as exact rational
division (`ROUND(x, 2)` as half-up rounding to two decimals). -/

/-- One row of the leaderboard query result. -/
structure LeaderboardEntry where
  rank : Nat
  playerId : Nat
  name : String
  value : ℚ
deriving DecidableEq, Repr

/-- `by=wins` or `by=efficiency` (query parameter of `GET /leaderboard`). -/
inductive LeaderboardMode where
  | wins
  | efficiency
deriving DecidableEq, Repr

/-- Sort key of the `wins` ordering: `total_wins DESC` (smaller key first). -/
def winsKey (p : Player) : ℤ := -(p.total_wins : ℤ)

/-- Sort key of the `efficiency` ordering: the unrounded
`CAST(total_moves_in_wins AS FLOAT) / total_wins ASC`. -/
def effKey (p : Player) : ℚ := (p.total_moves_in_wins : ℚ) / (p.total_wins : ℚ)

/-- `ROUND(x, 2)`: half-up rounding to two decimal places (values here are
nonnegative). -/
def round2 (q : ℚ) : ℚ := (⌊q * 100 + 1 / 2⌋ : ℚ) / 100

/-- Insert into an already key-sorted list, after every element whose key is
not strictly greater. -/
def insSorted {κ : Type} [LinearOrder κ] (key : Player → κ) (x : Player) :
    List Player → List Player
  | [] => [x]
  | y :: ys =>
      if key x < key y then x :: y :: ys else y :: insSorted key x ys

/-- Left-to-right insertion pass over the scan order. -/
def isortGo {κ : Type} [LinearOrder κ] (key : Player → κ)
    (acc : List Player) : List Player → List Player
  | [] => acc
  | x :: xs => isortGo key (insSorted key x acc) xs

/-- The modelled `ORDER BY`: an insertion sort by `key` over the scan. -/
def isort {κ : Type} [LinearOrder κ] (key : Player → κ) (l : List Player) :
    List Player := isortGo key [] l

/-- The ordered, filtered, truncated player rows underlying the query
result. -/
def lbPlayers (mode : LeaderboardMode) (players : List Player) : List Player :=
  let eligible := players.filter fun p => 0 < p.total_wins
  match mode with
  | .wins => (isort winsKey eligible).take 3
  | .efficiency => (isort effKey eligible).take 3

/-- The displayed score column: `total_wins`, or the rounded average moves
per win. -/
def lbValue (mode : LeaderboardMode) (p : Player) : ℚ :=
  match mode with
  | .wins => (p.total_wins : ℚ)
  | .efficiency => round2 (effKey p)

/-- `ROW_NUMBER()` starting at `n`. -/
def rankFrom (mode : LeaderboardMode) (n : Nat) :
    List Player → List LeaderboardEntry
  | [] => []
  | p :: ps => ⟨n, p.id, p.name, lbValue mode p⟩ :: rankFrom mode (n + 1) ps

/-- `getLeaderboard(by)` from `db/database`. -/
def getLeaderboard (mode : LeaderboardMode) (players : List Player) :
    List LeaderboardEntry :=
  rankFrom mode 1 (lbPlayers mode players)

/-! ### Concrete scenarios used by witnesses and counterexamples -/

/-- Two registered players `A` (id 1) and `B` (id 2), no games yet. -/
def demoDB0 : DB := ⟨[⟨1, "A", 0, 0⟩, ⟨2, "B", 0, 0⟩], [], []⟩

/-- Scenario A of the spec, step by step.  After game creation by A. -/
def dbG : DB := (createGame demoDB0 1 "g").toOption.getD ⟨[], [], []⟩

/-- After B joins. -/
def dbJ : DB := (joinGameApi dbG "g" 2).toOption.getD ⟨[], [], []⟩

/-- After move (0,0) by A. -/
def dbM1 : DB := (applyMove dbJ "g" 1 0 0).toOption.getD ⟨[], [], []⟩

/-- After move (1,1) by B. -/
def dbM2 : DB := (applyMove dbM1 "g" 2 1 1).toOption.getD ⟨[], [], []⟩

/-- After move (0,1) by A. -/
def dbM3 : DB := (applyMove dbM2 "g" 1 0 1).toOption.getD ⟨[], [], []⟩

/-- After move (1,0) by B — four accepted moves, A to play the winning
(0,2). -/
def dbA4 : DB := (applyMove dbM3 "g" 2 1 0).toOption.getD ⟨[], [], []⟩

/-- After A's winning move (0,2) completes the top row. -/
def dbA5 : DB := (applyMove dbA4 "g" 1 0 2).toOption.getD ⟨[], [], []⟩

/-- Two players with winning statistics. -/
def demoTied : List Player := [⟨1, "A", 2, 10⟩, ⟨2, "B", 2, 10⟩]

/-! ## Theorems -/

/-! ### Grid logic lemmas -/

theorem wfGrid_canon (g : Grid) (h : WFGrid g) :
    ∃ a₀ a₁ a₂ b₀ b₁ b₂ c₀ c₁ c₂ : Nat,
      g = [[a₀, a₁, a₂], [b₀, b₁, b₂], [c₀, c₁, c₂]] := by
  obtain ⟨hl, hrow⟩ := h
  match g, hl with
  | [r0, r1, r2], _ =>
    have h0 := hrow r0 (by simp)
    have h1 := hrow r1 (by simp)
    have h2 := hrow r2 (by simp)
    match r0, h0 with
    | [a₀, a₁, a₂], _ =>
      match r1, h1 with
      | [b₀, b₁, b₂], _ =>
        match r2, h2 with
        | [c₀, c₁, c₂], _ =>
          exact ⟨a₀, a₁, a₂, b₀, b₁, b₂, c₀, c₁, c₂, rfl⟩

theorem cell_makeMove (g : Grid) (hw : WFGrid g) {r c : Nat} (hr : r < 3)
    (hc : c < 3) (m : Nat) (r' c' : Nat) (hr' : r' < 3) (hc' : c' < 3) :
    cell (makeMove g r c m) r' c' =
      if r' = r ∧ c' = c then m else cell g r' c' := by
  obtain ⟨a₀, a₁, a₂, b₀, b₁, b₂, c₀, c₁, c₂, rfl⟩ := wfGrid_canon g hw
  interval_cases r <;> interval_cases c <;> interval_cases r' <;>
    interval_cases c' <;> simp [makeMove, cell]

theorem wfGrid_makeMove (g : Grid) (hw : WFGrid g) {r c : Nat} (hr : r < 3)
    (hc : c < 3) (m : Nat) : WFGrid (makeMove g r c m) := by
  obtain ⟨a₀, a₁, a₂, b₀, b₁, b₂, c₀, c₁, c₂, rfl⟩ := wfGrid_canon g hw
  interval_cases r <;> interval_cases c <;> simp [makeMove, WFGrid]

theorem countNonEmpty_makeMove (g : Grid) (hw : WFGrid g) {r c m : Nat}
    (hr : r < 3) (hc : c < 3) (h0 : cell g r c = 0) (hm : m ≠ 0) :
    countNonEmpty (makeMove g r c m) = countNonEmpty g + 1 := by
  obtain ⟨a₀, a₁, a₂, b₀, b₁, b₂, c₀, c₁, c₂, rfl⟩ := wfGrid_canon g hw
  interval_cases r <;> interval_cases c <;>
    simp_all [countNonEmpty, makeMove, cell, List.range_succ] <;> ring

theorem checkDraw_iff (g : Grid) :
    checkDraw g = true ↔ ∀ r < 3, ∀ c < 3, cell g r c ≠ 0 := by
  simp [checkDraw, List.all_eq_true, List.mem_range]

theorem isMoveValid_iff (g : Grid) (row col : Int) :
    isMoveValid g row col = true ↔
      0 ≤ row ∧ row ≤ 2 ∧ 0 ≤ col ∧ col ≤ 2 ∧
        cell g row.toNat col.toNat = 0 := by
  unfold isMoveValid
  split
  · rename_i h
    simp only [Bool.or_eq_true, decide_eq_true_eq] at h
    constructor
    · intro h'; cases h'
    · rintro ⟨h1, h2, h3, h4, _⟩; omega
  · rename_i h
    simp only [Bool.or_eq_true, decide_eq_true_eq] at h
    push_neg at h
    simp only [beq_iff_eq]
    constructor
    · intro h'; exact ⟨by omega, by omega, by omega, by omega, h'⟩
    · rintro ⟨_, _, _, _, h'⟩; exact h'

/-! ### C8: `makeMove` (the spec's `applyMark`) is a one-cell update -/

/-- C8: for in-range coordinates, `makeMove` returns a 3×3 matrix holding
`mark` at `(row, col)` and the input's value everywhere else; the input grid
itself is untouched (the function is pure — the output is a fresh value and
every other cell still reads from the input). -/
theorem makeMove_frame (g : Grid) (hw : WFGrid g) (r c m : Nat) (hr : r < 3)
    (hc : c < 3) :
    WFGrid (makeMove g r c m) ∧ cell (makeMove g r c m) r c = m ∧
      ∀ r' c', r' < 3 → c' < 3 → ¬(r' = r ∧ c' = c) →
        cell (makeMove g r c m) r' c' = cell g r' c' := by
  refine ⟨wfGrid_makeMove g hw hr hc m, ?_, ?_⟩
  · rw [cell_makeMove g hw hr hc m r c hr hc]; simp
  · intro r' c' hr' hc' hne
    rw [cell_makeMove g hw hr hc m r' c' hr' hc']
    simp [hne]

/-- Witness for C8 at the empty grid, `(row, col) = (1, 2)`, mark 1. -/
theorem makeMove_frame_witness :
    WFGrid (makeMove createEmptyGrid 1 2 1) ∧
      cell (makeMove createEmptyGrid 1 2 1) 1 2 = 1 ∧
      cell (makeMove createEmptyGrid 1 2 1) 0 0 = cell createEmptyGrid 0 0 := by
  have h := makeMove_frame createEmptyGrid (by decide) 1 2 1 (by decide)
    (by decide)
  exact ⟨h.1, h.2.1, h.2.2 0 0 (by decide) (by decide) (by decide)⟩

/-! ### C9: `isMoveValid` characterisation -/

/-- C9: on a 3×3 grid, `isMoveValid` returns `true` exactly when both
coordinates are in `[0, 2]` and the addressed cell is empty; out-of-range
coordinates yield `false` (a value, not an error). -/
theorem isMoveValid_spec (g : Grid) (_hw : WFGrid g) :
    (∀ row col : Int,
      isMoveValid g row col = true ↔
        0 ≤ row ∧ row ≤ 2 ∧ 0 ≤ col ∧ col ≤ 2 ∧
          cell g row.toNat col.toNat = 0) ∧
    (∀ row col : Int, (row < 0 ∨ 2 < row ∨ col < 0 ∨ 2 < col) →
      isMoveValid g row col = false) := by
  refine ⟨fun row col => isMoveValid_iff g row col, fun row col hoob => ?_⟩
  cases h : isMoveValid g row col
  · rfl
  · obtain ⟨h1, h2, h3, h4, _⟩ := (isMoveValid_iff g row col).mp h
    omega

/-- Witness for C9: a legal move on the empty grid and an out-of-range one. -/
theorem isMoveValid_spec_witness :
    isMoveValid createEmptyGrid 0 0 = true ∧
      isMoveValid createEmptyGrid (-1) 0 = false := by
  have h := isMoveValid_spec createEmptyGrid (by decide)
  exact ⟨(h.1 0 0).mpr (by decide), h.2 (-1) 0 (by decide)⟩

/-! ### C10: `checkDraw` only checks fullness; the caller orders the
checks -/

/-- C10: `checkDraw` is `true` exactly when no cell is 0 — even when a
winning line is present (witnessed by a full winning grid) — and the route's
status computation yields `draw` only when the win check came back `false`
and the board is full. -/
theorem checkDraw_spec :
    (∀ g : Grid, WFGrid g →
      (checkDraw g = true ↔ ∀ r < 3, ∀ c < 3, cell g r c ≠ 0)) ∧
    (∃ g : Grid, WFGrid g ∧ checkWin g 1 = true ∧ checkDraw g = true) ∧
    (∀ (g : Grid) (pn : Nat),
      newStatusOf g pn = .draw ↔ checkWin g pn = false ∧ checkDraw g = true) := by
  refine ⟨fun g _ => checkDraw_iff g, ⟨[[1, 1, 1], [2, 2, 1], [2, 1, 2]],
    by decide, by decide, by decide⟩, fun g pn => ?_⟩
  unfold newStatusOf
  cases h : checkWin g pn <;> cases h' : checkDraw g <;> simp [h, h']

/-- Witness for C10: the spec's Scenario B draw grid, and the caller's
status computation on it. -/
theorem checkDraw_spec_witness :
    checkDraw [[1, 2, 1], [2, 1, 2], [2, 1, 2]] = true ∧
      newStatusOf [[1, 2, 1], [2, 1, 2], [2, 1, 2]] 1 = .draw := by
  have h := checkDraw_spec
  exact ⟨(h.1 [[1, 2, 1], [2, 1, 2], [2, 1, 2]] (by decide)).mpr (by decide),
    (h.2.2 [[1, 2, 1], [2, 1, 2], [2, 1, 2]] 1).mpr ⟨by decide, by decide⟩⟩



/-! ### Lookup and update plumbing -/

/-- `find?` commutes with a `map` whose function preserves the predicate. -/
theorem find?_map_pred {α : Type} (l : List α) (p : α → Bool) (u : α → α)
    (hp : ∀ x, p (u x) = p x) :
    (l.map u).find? p = (l.find? p).map u := by
  induction l with
  | nil => rfl
  | cons x xs ih =>
      simp only [List.map_cons, List.find?_cons]
      rw [hp x]
      cases h : p x <;> simp [h, ih]

/-- Success characterisation of `applyMove`: it commits exactly when the
body is valid, the player and game exist, the game is in progress, it is
the acting player's turn and the move is legal; the committed database is
`dbCommit` at the computed new grid, status and winner. -/
theorem applyMove_ok_iff (db : DB) (gid : String) (pid : Nat) (row col : Int)
    (db' : DB) :
    applyMove db gid pid row col = .ok db' ↔
      pid ≠ 0 ∧ (getPlayerById db pid).isSome = true ∧
      ∃ game, getGameById db gid = some game ∧
        game.status = .in_progress ∧
        game.current_turn_player_id = some pid ∧
        isMoveValid game.grid row col = true ∧
        db' = dbCommit db gid pid row col
          (makeMove game.grid row.toNat col.toNat
            (if game.player1_id == some pid then 1 else 2))
          (newStatusOf
            (makeMove game.grid row.toNat col.toNat
              (if game.player1_id == some pid then 1 else 2))
            (if game.player1_id == some pid then 1 else 2))
          (if checkWin
              (makeMove game.grid row.toNat col.toNat
                (if game.player1_id == some pid then 1 else 2))
              (if game.player1_id == some pid then 1 else 2)
            then some pid else none)
          game := by
  unfold applyMove
  split
  · rename_i hz
    simp only [beq_iff_eq] at hz
    subst hz
    simp
  · rename_i hz
    simp only [beq_iff_eq] at hz
    cases hP : getPlayerById db pid with
    | none => simp [hz]
    | some P =>
        cases hG : getGameById db gid with
        | none => simp [hz, hP]
        | some game =>
            simp only [Option.isSome_some, hG, Option.some_inj]
            by_cases hst : game.status = GameStatus.in_progress
            · by_cases hturn : game.current_turn_player_id = some pid
              · by_cases hmv : isMoveValid game.grid row col = true
                · have hcell :
                      (cell game.grid row.toNat col.toNat ≠ 0) = False := by
                    obtain ⟨_, _, _, _, h0⟩ := (isMoveValid_iff _ _ _).mp hmv
                    simp [h0]
                  unfold dbMakeMove
                  rw [hG]
                  simp only [hst, hturn, hmv, hcell]
                  simp [hz, Except.map, hst, hturn, hmv, hG]
                  exact eq_comm
                · simp [hst, hturn, hmv, hz]
              · simp [hst, hturn, hz]
            · simp [hst, hz]

/-- A keyed `UPDATE ... WHERE` commutes with the primary-key lookup. -/
theorem find?_map_update {α : Type} (l : List α) (p : α → Bool) (repl : α → α)
    (hp : ∀ x, p (repl x) = p x) :
    (l.map fun x => if p x then repl x else x).find? p = (l.find? p).map repl := by
  rw [find?_map_pred]
  · cases h : l.find? p with
    | none => rfl
    | some x0 =>
        have hx := List.find?_some h
        simp [hx]
  · intro x
    cases hx : p x <;> simp [hx, hp x]

/-! ### C5: replaying a move against a won session -/

/-- C5: when the session is already `won`, `applyMove` — replaying the same
winning move or any other move by a registered player — yields
`InvalidState` and commits no new state, so no grid change, no move-count
change and no second increment of the winner statistics. -/
theorem applyMove_rejects_won (db : DB) (gid : String) (pid : Nat)
    (row col : Int) (game : Game) (P : Player) (hpid : pid ≠ 0)
    (hp : getPlayerById db pid = some P)
    (hg : getGameById db gid = some game) (hwon : game.status = .win) :
    applyMove db gid pid row col = .error .InvalidState ∧
      ∀ db' : DB, applyMove db gid pid row col ≠ .ok db' := by
  have h1 : applyMove db gid pid row col = .error .InvalidState := by
    unfold applyMove
    have hz : (pid == 0) = false := by simp [hpid]
    simp [hz, hp, hg, hwon, hpid]
  exact ⟨h1, by simp [h1]⟩

/-! ### C4: `joinSession` outcomes -/

/-- C4: `joinGame` fails with `NotFound` for an unknown session id, with
`InvalidState` when the status is not `waiting`, and with `SelfJoin` when a
waiting session is joined by its own first player; on success it sets the
second player, flips the status to `in_progress`, and leaves the
current-turn player id (and the first player) unchanged. -/
theorem joinGame_spec (db : DB) (gid : String) (pid : Nat) :
    (getGameById db gid = none → joinGame db gid pid = .error .NotFound) ∧
    (∀ game, getGameById db gid = some game → game.status ≠ .waiting →
      joinGame db gid pid = .error .InvalidState) ∧
    (∀ game, getGameById db gid = some game → game.status = .waiting →
      game.player1_id = some pid → joinGame db gid pid = .error .SelfJoin) ∧
    (∀ game db', getGameById db gid = some game →
      joinGame db gid pid = .ok db' →
      (getGameById db' gid).map Game.player2_id = some (some pid) ∧
      (getGameById db' gid).map Game.status = some .in_progress ∧
      (getGameById db' gid).map Game.current_turn_player_id =
        some game.current_turn_player_id ∧
      (getGameById db' gid).map Game.player1_id = some game.player1_id ∧
      db'.players = db.players) := by
  refine ⟨?_, ?_, ?_, ?_⟩
  · intro hnone
    unfold joinGame
    rw [hnone]
  · intro game hg hst
    unfold joinGame
    rw [hg]
    simp [hst]
  · intro game hg hst hself
    unfold joinGame
    rw [hg]
    simp [hst, hself]
  · intro game db' hg hok
    unfold joinGame at hok
    rw [hg] at hok
    dsimp only at hok
    by_cases hst : game.status = GameStatus.waiting
    · by_cases hself : game.player1_id = some pid
      · simp [hst, hself] at hok
      · rw [if_neg (by simp [hst]), if_neg (by simp [hself])] at hok
        injection hok with h
        subst h
        unfold getGameById
        simp only []
        rw [find?_map_update db.games (fun g => g.id == gid)
          (fun g => { g with player2_id := some pid,
                             status := GameStatus.in_progress })
          (fun g => rfl)]
        unfold getGameById at hg
        rw [hg]
        simp
    · simp [hst] at hok

/-! ### C1: a winning move commits status, winner and statistics
together -/

/-- C1: when `applyMove` by the current-turn player succeeds and the new
grid completes a winning line, the one committed database holds, for that
session, status `won`, winner = the acting player, the incremented move
counter, and for that player cumulative wins increased by exactly 1 and
cumulative moves-in-wins increased by exactly the new move counter. -/
theorem winning_move_updates_stats (db : DB) (gid : String) (pid : Nat)
    (row col : Int) (db' : DB) (game : Game) (P : Player)
    (hg : getGameById db gid = some game)
    (hp : getPlayerById db pid = some P)
    (hok : applyMove db gid pid row col = .ok db')
    (hwin : checkWin (makeMove game.grid row.toNat col.toNat
        (if game.player1_id == some pid then 1 else 2))
        (if game.player1_id == some pid then 1 else 2) = true) :
    (getGameById db' gid).map Game.status = some .win ∧
    (getGameById db' gid).map Game.winner_id = some (some pid) ∧
    (getGameById db' gid).map Game.move_count = some (game.move_count + 1) ∧
    (getPlayerById db' pid).map Player.total_wins = some (P.total_wins + 1) ∧
    (getPlayerById db' pid).map Player.total_moves_in_wins =
      some (P.total_moves_in_wins + (game.move_count + 1)) := by
  obtain ⟨hz, hsome, game0, hg0, hst, hturn, hmv, rfl⟩ :=
    (applyMove_ok_iff db gid pid row col db').mp hok
  rw [hg] at hg0
  obtain rfl : game = game0 := Option.some_inj.mp hg0
  have hns : newStatusOf (makeMove game.grid row.toNat col.toNat
      (if game.player1_id == some pid then 1 else 2))
      (if game.player1_id == some pid then 1 else 2) = .win := by
    unfold newStatusOf
    rw [hwin]
    rfl
  have hwid : (if checkWin (makeMove game.grid row.toNat col.toNat
      (if game.player1_id == some pid then 1 else 2))
      (if game.player1_id == some pid then 1 else 2) = true
      then some pid else none) = some pid := by
    rw [if_pos hwin]
  unfold dbCommit
  rw [hns, hwid]
  refine ⟨?_, ?_, ?_, ?_, ?_⟩
  · unfold getGameById
    dsimp only
    rw [find?_map_update]
    · unfold getGameById at hg
      rw [hg]
      rfl
    · intro x; rfl
  · unfold getGameById
    dsimp only
    rw [find?_map_update]
    · unfold getGameById at hg
      rw [hg]
      rfl
    · intro x; rfl
  · unfold getGameById
    dsimp only
    rw [find?_map_update]
    · unfold getGameById at hg
      rw [hg]
      rfl
    · intro x; rfl
  · unfold getPlayerById
    dsimp only
    simp only [Option.getD_some]
    rw [if_pos hz]
    rw [find?_map_update]
    · unfold getPlayerById at hp
      rw [hp]
      rfl
    · intro x; rfl
  · unfold getPlayerById
    dsimp only
    simp only [Option.getD_some]
    rw [if_pos hz]
    rw [find?_map_update]
    · unfold getPlayerById at hp
      rw [hp]
      rfl
    · intro x; rfl

/-! ### C3: the move counter counts the non-empty cells -/

/-- C3: in every database reachable by engine operations (create player,
create, join, accepted moves), every session's move counter equals the
number of non-empty cells of its (3×3) grid. -/
theorem move_count_eq_nonEmpty (db : DB) (h : Reachable db) :
    ∀ game ∈ db.games, WFGrid game.grid ∧
      game.move_count = countNonEmpty game.grid := by
  induction h with
  | init => intro game hmem; cases hmem
  | createPlayer pid name hre hz hfresh ih =>
      intro game hmem
      exact ih game hmem
  | createGame pid gid hre hfresh hok ih =>
      intro game hmem
      unfold createGame at hok
      split at hok
      · cases hok
      · rename_i hz
        cases hP : getPlayerById _ pid with
        | none => rw [hP] at hok; cases hok
        | some P =>
            rw [hP] at hok
            dsimp only at hok
            injection hok with h'
            subst h'
            rcases List.mem_append.mp hmem with hold | hnew
            · exact ih game hold
            · rcases List.mem_singleton.mp hnew with rfl
              refine ⟨?_, ?_⟩
              · show WFGrid createEmptyGrid
                decide
              · show (0 : Nat) = countNonEmpty createEmptyGrid
                decide
  | joinGame gid pid hre hok ih =>
      intro game hmem
      unfold joinGameApi at hok
      split at hok
      · cases hok
      · cases hP : getPlayerById _ pid with
        | none => rw [hP] at hok; cases hok
        | some P =>
            rw [hP] at hok
            dsimp only at hok
            unfold joinGame at hok
            cases hG : getGameById _ gid with
            | none => rw [hG] at hok; cases hok
            | some g0 =>
                rw [hG] at hok
                dsimp only at hok
                split at hok
                · cases hok
                · split at hok
                  · cases hok
                  · injection hok with h'
                    subst h'
                    obtain ⟨y, hy, rfl⟩ := List.mem_map.mp hmem
                    have hinv := ih y hy
                    cases hyid : (y.id == gid) <;> simp [hyid] <;> exact hinv
  | applyMove gid pid row col hre hok ih =>
      obtain ⟨hz, hsome, game0, hg0, hst, hturn, hmv, rfl⟩ :=
        (applyMove_ok_iff _ gid pid row col _).mp hok
      obtain ⟨hwf0, hmc0⟩ := ih game0 (List.mem_of_find?_eq_some hg0)
      obtain ⟨hr0, hr2, hc0, hc2, hcell⟩ := (isMoveValid_iff _ row col).mp hmv
      have hrlt : row.toNat < 3 := by omega
      have hclt : col.toNat < 3 := by omega
      have hpn0 : (if game0.player1_id == some pid then 1 else 2) ≠ 0 := by
        split <;> simp
      have hwf' := wfGrid_makeMove game0.grid hwf0 hrlt hclt
        (if game0.player1_id == some pid then 1 else 2)
      have hcnt := countNonEmpty_makeMove game0.grid hwf0 hrlt hclt hcell hpn0
      intro game hmem
      unfold dbCommit at hmem
      dsimp only at hmem
      obtain ⟨y, hy, rfl⟩ := List.mem_map.mp hmem
      cases hyid : (y.id == gid)
      · simp only [hyid] at *
        simp only [Bool.false_eq_true, if_false]
        exact ih y hy
      · simp only [hyid, if_true]
        exact ⟨hwf', by rw [hcnt, hmc0]⟩

/-- The Scenario A run is a reachable engine state. -/
theorem reachable_dbA5 : Reachable dbA5 := by
  have h0 : Reachable (⟨[], [], []⟩ : DB) := .init
  have h1 : Reachable (⟨[⟨1, "A", 0, 0⟩], [], []⟩ : DB) :=
    Reachable.createPlayer 1 "A" h0 (by decide) (by decide)
  have h2 : Reachable demoDB0 :=
    Reachable.createPlayer 2 "B" h1 (by decide) (by decide)
  have h3 : Reachable dbG :=
    Reachable.createGame 1 "g" h2 (by decide) rfl
  have h4 : Reachable dbJ := Reachable.joinGame "g" 2 h3 rfl
  have h5 : Reachable dbM1 := Reachable.applyMove "g" 1 0 0 h4 rfl
  have h6 : Reachable dbM2 := Reachable.applyMove "g" 2 1 1 h5 rfl
  have h7 : Reachable dbM3 := Reachable.applyMove "g" 1 0 1 h6 rfl
  have h8 : Reachable dbA4 := Reachable.applyMove "g" 2 1 0 h7 rfl
  exact Reachable.applyMove "g" 1 0 2 h8 rfl

/-! ### C2 (corrected): the current-turn id survives a terminal status -/

/-- C2 amended: once a session reaches a terminal status (`won` or `drawn`)
by an accepted move, the exposed read shape still carries a current-turn
player id — it stays equal to the player who made the final move, rather
than becoming absent. -/
theorem terminal_keeps_current_turn (db : DB) (gid : String) (pid : Nat)
    (row col : Int) (db' : DB) (st : GameStatus)
    (hok : applyMove db gid pid row col = .ok db')
    (hst' : (getGameById db' gid).map Game.status = some st)
    (hterm : st = .win ∨ st = .draw) :
    (getSession db' gid).map SessionView.current_turn_player_id =
      some (some pid) := by
  obtain ⟨hz, hsome, game0, hg0, hst, hturn, hmv, rfl⟩ :=
    (applyMove_ok_iff db gid pid row col db').mp hok
  have hfind : getGameById (dbCommit db gid pid row col
      (makeMove game0.grid row.toNat col.toNat
        (if game0.player1_id == some pid then 1 else 2))
      (newStatusOf (makeMove game0.grid row.toNat col.toNat
        (if game0.player1_id == some pid then 1 else 2))
        (if game0.player1_id == some pid then 1 else 2))
      (if checkWin (makeMove game0.grid row.toNat col.toNat
          (if game0.player1_id == some pid then 1 else 2))
          (if game0.player1_id == some pid then 1 else 2) = true
        then some pid else none) game0) gid =
      some { game0 with
        grid := makeMove game0.grid row.toNat col.toNat
          (if game0.player1_id == some pid then 1 else 2),
        move_count := game0.move_count + 1,
        current_turn_player_id :=
          if (newStatusOf (makeMove game0.grid row.toNat col.toNat
              (if game0.player1_id == some pid then 1 else 2))
              (if game0.player1_id == some pid then 1 else 2)) =
              GameStatus.in_progress then
            (if game0.player1_id == some pid then game0.player2_id
              else game0.player1_id)
          else game0.current_turn_player_id,
        status := newStatusOf (makeMove game0.grid row.toNat col.toNat
          (if game0.player1_id == some pid then 1 else 2))
          (if game0.player1_id == some pid then 1 else 2),
        winner_id :=
          if checkWin (makeMove game0.grid row.toNat col.toNat
              (if game0.player1_id == some pid then 1 else 2))
              (if game0.player1_id == some pid then 1 else 2) = true
            then some pid else none } := by
    unfold dbCommit getGameById
    dsimp only
    rw [find?_map_update]
    · rw [show db.games.find? (fun g => g.id == gid) = some game0 from hg0]
      rfl
    · intro x; rfl
  have hns : newStatusOf (makeMove game0.grid row.toNat col.toNat
      (if game0.player1_id == some pid then 1 else 2))
      (if game0.player1_id == some pid then 1 else 2) ≠
      GameStatus.in_progress := by
    rw [hfind] at hst'
    dsimp only [Option.map] at hst'
    injection hst' with hst2
    intro hcontra
    rw [hcontra] at hst2
    rcases hterm with rfl | rfl <;> cases hst2
  unfold getSession
  rw [hfind, if_neg hns]
  simp [hturn]

/-- C2 counterexample: a reachable session whose status is `won` for which
`getSession` still returns a current-turn player id (`some 1`, the winner),
refuting the claim that the current-turn id is absent once terminal. -/
theorem getSession_terminal_counterexample :
    Reachable dbA5 ∧
      (getSession dbA5 "g").map
        (fun v => (v.status, v.current_turn_player_id)) =
        some (GameStatus.win, some 1) :=
  ⟨reachable_dbA5, by decide⟩

/-- Witness for the amended C2 at the Scenario A run. -/
theorem terminal_keeps_current_turn_witness :
    (getSession dbA5 "g").map SessionView.current_turn_player_id =
      some (some 1) :=
  terminal_keeps_current_turn dbA4 "g" 1 0 2 dbA5 .win rfl (by decide)
    (Or.inl rfl)

/-- Witness for C1: Scenario A — A wins after 5 moves, `A.wins` goes 0 → 1
and `A.moves_in_wins` 0 → 5. -/
theorem winning_move_updates_stats_witness :
    (getGameById dbA5 "g").map Game.status = some .win ∧
    (getGameById dbA5 "g").map Game.winner_id = some (some 1) ∧
    (getGameById dbA5 "g").map Game.move_count = some 5 ∧
    (getPlayerById dbA5 1).map Player.total_wins = some 1 ∧
    (getPlayerById dbA5 1).map Player.total_moves_in_wins = some 5 :=
  winning_move_updates_stats dbA4 "g" 1 0 2 dbA5
    ⟨"g", some 1, some 2, some 1, .in_progress, none,
      [[1, 1, 0], [2, 2, 0], [0, 0, 0]], 4⟩
    ⟨1, "A", 0, 0⟩ (by decide) (by decide) rfl (by decide)

/-- Witness for C3 at the Scenario A final state (5 moves, 5 marked
cells). -/
theorem move_count_eq_nonEmpty_witness :
    WFGrid [[1, 1, 1], [2, 2, 0], [0, 0, 0]] ∧
      (5 : Nat) = countNonEmpty [[1, 1, 1], [2, 2, 0], [0, 0, 0]] :=
  move_count_eq_nonEmpty dbA5 reachable_dbA5
    ⟨"g", some 1, some 2, some 1, .win, some 1,
      [[1, 1, 1], [2, 2, 0], [0, 0, 0]], 5⟩ (by decide)

/-- Witness for C5: replaying the winning move of Scenario A. -/
theorem applyMove_rejects_won_witness :
    applyMove dbA5 "g" 1 0 2 = .error .InvalidState :=
  (applyMove_rejects_won dbA5 "g" 1 0 2
    ⟨"g", some 1, some 2, some 1, .win, some 1,
      [[1, 1, 1], [2, 2, 0], [0, 0, 0]], 5⟩
    ⟨1, "A", 1, 5⟩ (by decide) (by decide) (by decide) rfl).1

/-- Witness for C4: a self-join rejection and a successful join in
Scenario A. -/
theorem joinGame_spec_witness :
    joinGame dbG "g" 1 = .error .SelfJoin ∧
      (getGameById dbJ "g").map Game.status = some .in_progress ∧
      (getGameById dbJ "g").map Game.player2_id = some (some 2) := by
  have h1 := joinGame_spec dbG "g" 1
  have h2 := joinGame_spec dbG "g" 2
  refine ⟨h1.2.2.1 ⟨"g", some 1, none, some 1, .waiting, none,
    createEmptyGrid, 0⟩ (by decide) rfl rfl, ?_, ?_⟩
  · exact (h2.2.2.2 ⟨"g", some 1, none, some 1, .waiting, none,
      createEmptyGrid, 0⟩ dbJ (by decide) rfl).2.1
  · exact (h2.2.2.2 ⟨"g", some 1, none, some 1, .waiting, none,
      createEmptyGrid, 0⟩ dbJ (by decide) rfl).1

/-! ### Leaderboard: sort membership lemmas -/

/-- Membership through one insertion. -/
theorem mem_insSorted {κ : Type} [LinearOrder κ] (key : Player → κ)
    (x z : Player) (l : List Player) :
    z ∈ insSorted key x l ↔ z = x ∨ z ∈ l := by
  induction l with
  | nil => simp [insSorted]
  | cons y ys ih =>
      unfold insSorted
      split
      · simp [List.mem_cons]
      · simp only [List.mem_cons, ih]
        tauto

/-- Membership through the insertion pass. -/
theorem mem_isortGo {κ : Type} [LinearOrder κ] (key : Player → κ)
    (z : Player) (l acc : List Player) :
    z ∈ isortGo key acc l ↔ z ∈ acc ∨ z ∈ l := by
  induction l generalizing acc with
  | nil => simp [isortGo]
  | cons x xs ih =>
      unfold isortGo
      rw [ih, mem_insSorted]
      simp [List.mem_cons]
      tauto

/-- The modelled `ORDER BY` returns only rows of its input. -/
theorem mem_isort {κ : Type} [LinearOrder κ] (key : Player → κ)
    (z : Player) (l : List Player) (h : z ∈ isort key l) : z ∈ l := by
  rcases (mem_isortGo key z l []).mp h with h2 | h2
  · cases h2
  · exact h2

/-- Row numbering preserves length. -/
theorem rankFrom_length (mode : LeaderboardMode) (n : Nat)
    (l : List Player) : (rankFrom mode n l).length = l.length := by
  induction l generalizing n with
  | nil => rfl
  | cons p ps ih => simp [rankFrom, ih]

/-- Every leaderboard entry comes from a row of the ranked list. -/
theorem mem_rankFrom (mode : LeaderboardMode) (n : Nat) (l : List Player)
    (e : LeaderboardEntry) (h : e ∈ rankFrom mode n l) :
    ∃ p ∈ l, e.playerId = p.id ∧ e.name = p.name := by
  induction l generalizing n with
  | nil => cases h
  | cons p ps ih =>
      rcases List.mem_cons.mp h with rfl | h2
      · exact ⟨p, List.mem_cons_self p ps, rfl, rfl⟩
      · obtain ⟨q, hq, hid, hname⟩ := ih (n + 1) h2
        exact ⟨q, List.mem_cons_of_mem _ hq, hid, hname⟩

/-! ### C7: limit three, winners only, empty is valid -/

/-- C7: for any statistics and either ordering, the leaderboard has at most
3 entries, every entry belongs to a player with positive wins, and when no
player has a win the result is the empty sequence (not an error). -/
theorem leaderboard_limit_and_wins (mode : LeaderboardMode)
    (players : List Player) :
    (getLeaderboard mode players).length ≤ 3 ∧
    (∀ e ∈ getLeaderboard mode players, ∃ p ∈ players,
      e.playerId = p.id ∧ e.name = p.name ∧ 0 < p.total_wins) ∧
    ((∀ p ∈ players, p.total_wins = 0) →
      getLeaderboard mode players = []) := by
  refine ⟨?_, ?_, ?_⟩
  · unfold getLeaderboard
    rw [rankFrom_length]
    unfold lbPlayers
    cases mode <;> exact List.length_take_le 3 _
  · intro e he
    obtain ⟨p, hp, hid, hname⟩ := mem_rankFrom mode 1 _ e he
    have hp2 : p ∈ players.filter fun p => 0 < p.total_wins := by
      unfold lbPlayers at hp
      cases mode with
      | wins => exact mem_isort winsKey p _ (List.mem_of_mem_take hp)
      | efficiency => exact mem_isort effKey p _ (List.mem_of_mem_take hp)
    rcases List.mem_filter.mp hp2 with ⟨hmem, hwins⟩
    exact ⟨p, hmem, hid, hname, by simpa using hwins⟩
  · intro hz
    have hfil : players.filter (fun p => 0 < p.total_wins) = [] := by
      rw [List.filter_eq_nil_iff]
      intro a ha
      simp [hz a ha]
    unfold getLeaderboard lbPlayers
    cases mode <;> rw [hfil] <;> rfl

/-- Witness for C7: a bounded result and the empty leaderboard of a
zero-win player set. -/
theorem leaderboard_limit_and_wins_witness :
    (getLeaderboard .wins demoTied).length ≤ 3 ∧
      getLeaderboard .efficiency [⟨1, "Z", 0, 0⟩] = [] := by
  have h1 := leaderboard_limit_and_wins .wins demoTied
  have h2 := leaderboard_limit_and_wins .efficiency [⟨1, "Z", 0, 0⟩]
  exact ⟨h1.1, h2.2.2 (by decide)⟩

end GridGE
